import Mathlib

/-!
Shallow embedding of the ESP32-Watchdog library (Watchdog.h / Watchdog.cpp).

The Watchdog class is a mutex-guarded singleton tracking FreeRTOS task
liveness on top of the ESP-IDF task watchdog timer (TWDT).  We embed its
state and operations as pure Lean functions; every interaction with the
environment (current task handle, tick count, ESP-IDF API results, whether
a bounded-wait mutex take succeeded) becomes an explicit input.  All
machine integers (uint32_t, TickType_t) are modelled as Nat with an
explicit `% 2^32` at every operation where the C++ arithmetic can wrap.
-/

/-- Modulus of 32-bit unsigned arithmetic (uint32_t and, on ESP32 where
configUSE_16_BIT_TICKS is 0, TickType_t). -/
def UINT32_MOD : Nat := 4294967296

/-- ESP-IDF error code ESP_OK (0). -/
def ESP_OK : Nat := 0

/-- ESP-IDF error code ESP_ERR_INVALID_STATE (0x103). -/
def ESP_ERR_INVALID_STATE : Nat := 259

/-- ESP-IDF error code ESP_ERR_NOT_FOUND (0x105). -/
def ESP_ERR_NOT_FOUND : Nat := 261

/-- Mirrors Watchdog::TaskInfo (Watchdog.h lines 113-147).  `handle` embeds
the TaskHandle_t pointer as a Nat with 0 standing for nullptr.  The bounded
strncpy truncation of `name` is not modelled since no claim depends on the
name's content.  `missedFeeds` is a std::atomic uint32_t; accesses to it in
the source always happen under the task-list mutex, so it is embedded as a
plain Nat kept below 2^32. -/
structure TaskInfo where
  handle : Nat
  name : String
  lastFeedTime : Nat
  feedIntervalMs : Nat
  missedFeeds : Nat
  isCritical : Bool
  deriving Repr, DecidableEq

/-- The scalar and collection state of the Watchdog singleton
(Watchdog.h lines 298-302): initialized_, timeoutMs_, panicOnTimeout_ and
registeredTasks_.  The mutex handle itself carries no data and is modelled
through explicit lock-acquisition inputs on the operations. -/
structure WatchdogState where
  initialized : Bool
  timeoutMs : Nat
  panicOnTimeout : Bool
  registeredTasks : List TaskInfo
  deriving Repr, DecidableEq

/-- Watchdog::DEFAULT_TIMEOUT_MS (Watchdog.h line 107). -/
def DEFAULT_TIMEOUT_MS : Nat := 30000

/-- The state established by the private constructor (Watchdog.h lines
80-84): not initialized, default timeout, panic-on-timeout true, no tasks. -/
def initialWatchdogState : WatchdogState :=
  { initialized := false
    timeoutMs := DEFAULT_TIMEOUT_MS
    panicOnTimeout := true
    registeredTasks := [] }

namespace Watchdog

/-- Embeds Watchdog::findTaskByHandle (Watchdog.cpp lines 243-250): linear
scan returning the first entry with the given handle. -/
def findTaskByHandle (tasks : List TaskInfo) (handle : Nat) : Option TaskInfo :=
  tasks.find? (fun t => t.handle == handle)

/-- Embeds Watchdog::init (Watchdog.cpp lines 9-38).  `adapterErr` is the
esp_err_t produced by the external initWatchdogESPIDF call
(esp_task_wdt_init).  Note that the source performs no mutex acquisition in
init; `timeoutMs_` and `panicOnTimeout_` are written (lines 20-21) before
the adapter call, so they remain written even on the adapter-failure path. -/
def init (st : WatchdogState) (timeoutSeconds : Nat) (panicOnTimeout : Bool)
    (adapterErr : Nat) : Bool × WatchdogState :=
  if st.initialized then
    (true, st)
  else if timeoutSeconds = 0 ∨ timeoutSeconds > 3600 then
    (false, st)
  else if adapterErr = ESP_OK then
    (true, { st with timeoutMs := timeoutSeconds * 1000 % UINT32_MOD
                     panicOnTimeout := panicOnTimeout
                     initialized := true })
  else if adapterErr = ESP_ERR_INVALID_STATE then
    (true, { st with timeoutMs := timeoutSeconds * 1000 % UINT32_MOD
                     panicOnTimeout := panicOnTimeout
                     initialized := true })
  else
    (false, { st with timeoutMs := timeoutSeconds * 1000 % UINT32_MOD
                      panicOnTimeout := panicOnTimeout })

/-- Embeds Watchdog::deinit (Watchdog.cpp lines 40-59).  The mutex take uses
portMAX_DELAY and therefore succeeds, so the locked branch always runs; the
esp_task_wdt_delete results inside it are ignored by the source. -/
def deinit (st : WatchdogState) : Bool × WatchdogState :=
  if st.initialized then
    (true, { st with registeredTasks := [], initialized := false })
  else
    (true, st)

/-- Embeds the critical section of Watchdog::registerCurrentTask
(Watchdog.cpp lines 92-118): idempotent success when the handle is already
tracked, otherwise append a fresh TaskInfo whose feed interval defaults to
timeoutMs_ / 5 when the supplied one is zero. -/
def registerLocked (st : WatchdogState) (currentTask : Nat) (taskName : String)
    (isCritical : Bool) (feedIntervalMs now : Nat) : Bool × WatchdogState :=
  match findTaskByHandle st.registeredTasks currentTask with
  | some _ => (true, st)
  | none =>
      let info : TaskInfo :=
        { handle := currentTask
          name := taskName
          lastFeedTime := now
          feedIntervalMs := if feedIntervalMs > 0 then feedIntervalMs
                            else st.timeoutMs / 5
          missedFeeds := 0
          isCritical := isCritical }
      (true, { st with registeredTasks := st.registeredTasks ++ [info] })

/-- Embeds Watchdog::registerCurrentTask (Watchdog.cpp lines 61-121).
`currentTask` is the xTaskGetCurrentTaskHandle result (0 = nullptr),
`wdtStatus` the esp_task_wdt_status result, `wdtAddErr` the esp_task_wdt_add
result, `now` the xTaskGetTickCount value read at line 105.  The mutex take
uses portMAX_DELAY and thus succeeds (the trailing return false at line 120
is unreachable).  The esp_task_wdt_reset at line 113 touches no registry
state. -/
def registerCurrentTask (st : WatchdogState) (currentTask : Nat)
    (taskName : String) (isCritical : Bool) (feedIntervalMs : Nat)
    (wdtStatus wdtAddErr now : Nat) : Bool × WatchdogState :=
  if st.initialized then
    if currentTask = 0 then (false, st)
    else if wdtStatus = ESP_OK then
      registerLocked st currentTask taskName isCritical feedIntervalMs now
    else if wdtStatus = ESP_ERR_NOT_FOUND then
      if wdtAddErr ≠ ESP_OK then (false, st)
      else registerLocked st currentTask taskName isCritical feedIntervalMs now
    else (false, st)
  else (false, st)

/-- Embeds Watchdog::unregisterTaskByHandle (Watchdog.cpp lines 132-165).
`wdtDeleteErr` is the esp_task_wdt_delete result; the optional taskName
argument only affects logging.  The mutex take uses portMAX_DELAY. -/
def unregisterTaskByHandle (st : WatchdogState) (taskHandle : Nat)
    (wdtDeleteErr : Nat) : Bool × WatchdogState :=
  if taskHandle = 0 then (false, st)
  else if wdtDeleteErr ≠ ESP_OK ∧ wdtDeleteErr ≠ ESP_ERR_NOT_FOUND then
    (false, st)
  else
    (true, { st with registeredTasks :=
        st.registeredTasks.filter (fun t => !(t.handle == taskHandle)) })

/-- Embeds Watchdog::unregisterCurrentTask (Watchdog.cpp lines 123-130). -/
def unregisterCurrentTask (st : WatchdogState) (currentTask : Nat)
    (wdtDeleteErr : Nat) : Bool × WatchdogState :=
  if currentTask = 0 then (false, st)
  else unregisterTaskByHandle st currentTask wdtDeleteErr

/-- Updates the first entry carrying the given handle, mirroring mutation
through the pointer returned by Watchdog::findTaskByHandle; entries after
the first match are untouched, and the list is unchanged when no entry
matches. -/
def updateFirstTask (tasks : List TaskInfo) (handle : Nat)
    (f : TaskInfo → TaskInfo) : List TaskInfo :=
  match tasks with
  | [] => []
  | t :: rest =>
      if t.handle == handle then f t :: rest
      else t :: updateFirstTask rest handle f

/-- Calls Watchdog::feed makes into the ESP-IDF task-watchdog API. -/
inductive AdapterCall where
  | status (handle : Nat)
  | reset
  deriving Repr, DecidableEq

/-- Embeds Watchdog::feed (Watchdog.cpp lines 167-194).  `currentTask` is
the xTaskGetCurrentTaskHandle result (0 = nullptr); `lockAcquired` is
whether the 10 ms bounded mutex take at line 174 succeeded; `now` is the
xTaskGetTickCount value; `wdtStatus` the esp_task_wdt_status result at
line 187.  Returns the C++ bool result, the registry state, and the list of
ESP-IDF watchdog calls performed. -/
def feed (st : WatchdogState) (currentTask : Nat) (lockAcquired : Bool)
    (now : Nat) (wdtStatus : Nat) : Bool × WatchdogState × List AdapterCall :=
  if currentTask = 0 then (false, st, [])
  else
    let st1 :=
      if lockAcquired then
        { st with registeredTasks := (updateFirstTask st.registeredTasks
            currentTask (fun t => { t with lastFeedTime := now, missedFeeds := 0 })) }
      else st
    let calls := AdapterCall.status currentTask ::
      (if wdtStatus = ESP_OK then [AdapterCall.reset] else [])
    (true, st1, calls)

/-- Staleness test of a single entry as computed inside Watchdog::checkHealth
(Watchdog.cpp lines 227-230): the TickType_t subtraction now - lastFeedTime,
the multiplication by portTICK_PERIOD_MS, and feedIntervalMs * 2 are all
32-bit wrapping operations. -/
def isStale (tickPeriodMs now : Nat) (t : TaskInfo) : Bool :=
  let timeSinceLastFeed := (now + UINT32_MOD - t.lastFeedTime) % UINT32_MOD
  let timeSinceLastFeedMs := timeSinceLastFeed * tickPeriodMs % UINT32_MOD
  decide (timeSinceLastFeedMs > t.feedIntervalMs * 2 % UINT32_MOD)

/-- Embeds Watchdog::checkHealth (Watchdog.cpp lines 221-241).
`lockAcquired` is whether the 10 ms bounded mutex take at line 225
succeeded (on timeout the scan is skipped and the initial count 0 is
returned); `tickPeriodMs` is portTICK_PERIOD_MS; `now` the single
xTaskGetTickCount read at line 223.  For each stale entry the scan
increments `missedFeeds` (uint32_t increment, wrapping at 2^32) and counts
it. -/
def checkHealth (st : WatchdogState) (lockAcquired : Bool)
    (tickPeriodMs now : Nat) : Nat × WatchdogState :=
  if lockAcquired then
    ((st.registeredTasks.filter (isStale tickPeriodMs now)).length,
     { st with registeredTasks := st.registeredTasks.map (fun t =>
         if isStale tickPeriodMs now t then
           { t with missedFeeds := (t.missedFeeds + 1) % UINT32_MOD }
         else t) })
  else (0, st)

/-- Embeds Watchdog::getRegisteredTaskCount (Watchdog.cpp lines 196-203):
returns the entry count under a 10 ms bounded mutex take, 0 on timeout. -/
def getRegisteredTaskCount (st : WatchdogState) (lockAcquired : Bool) : Nat :=
  if lockAcquired then st.registeredTasks.length else 0

end Watchdog

/-- One invocation of a public Watchdog method, with every environment input
(task handle, tick count, ESP-IDF results, bounded-lock outcome) recorded in
the constructor so that an execution of the singleton is a list of these. -/
inductive WatchdogOp where
  | opInit (timeoutSeconds : Nat) (panicOnTimeout : Bool) (adapterErr : Nat)
  | opDeinit
  | opRegister (currentTask : Nat) (taskName : String) (isCritical : Bool)
      (feedIntervalMs wdtStatus wdtAddErr now : Nat)
  | opUnregisterCurrent (currentTask wdtDeleteErr : Nat)
  | opUnregisterByHandle (taskHandle wdtDeleteErr : Nat)
  | opFeed (currentTask : Nat) (lockAcquired : Bool) (now wdtStatus : Nat)
  | opCheckHealth (lockAcquired : Bool) (tickPeriodMs now : Nat)
  | opGetCount (lockAcquired : Bool)
  | opGetTaskInfo (taskName : String) (lockAcquired : Bool)
  | opIsInitialized
  | opGetTimeoutMs
  deriving Repr, DecidableEq

/-- State transition of one method call: the WatchdogState component of the
corresponding embedded operation (the read-only accessors getTaskInfo,
getRegisteredTaskCount, isInitialized and getTimeoutMs leave the state
unchanged). -/
def stepWatchdog (st : WatchdogState) (op : WatchdogOp) : WatchdogState :=
  match op with
  | .opInit ts p e => (Watchdog.init st ts p e).2
  | .opDeinit => (Watchdog.deinit st).2
  | .opRegister ct nm ic fi ws wa now =>
      (Watchdog.registerCurrentTask st ct nm ic fi ws wa now).2
  | .opUnregisterCurrent ct de => (Watchdog.unregisterCurrentTask st ct de).2
  | .opUnregisterByHandle h de => (Watchdog.unregisterTaskByHandle st h de).2
  | .opFeed ct lk now ws => (Watchdog.feed st ct lk now ws).2.1
  | .opCheckHealth lk tp now => (Watchdog.checkHealth st lk tp now).2
  | .opGetCount _ => st
  | .opGetTaskInfo _ _ => st
  | .opIsInitialized => st
  | .opGetTimeoutMs => st

/-- Runs a sequence of method calls from the constructor state. -/
def runWatchdog (ops : List WatchdogOp) : WatchdogState :=
  ops.foldl stepWatchdog initialWatchdogState

/-- The four guarded fields named by the concurrency invariant of the spec:
the entry collection registeredTasks_, the initialized_ flag, timeoutMs_
and panicOnTimeout_. -/
inductive RegField where
  | entries
  | initFlag
  | timeoutField
  | panicField
  deriving Repr, DecidableEq

/-- Whether a field access reads or writes. -/
inductive AccessKind where
  | read
  | write
  deriving Repr, DecidableEq

/-- One access to a guarded field, tagged with whether the task-list mutex
is held at that program point. -/
structure Access where
  field : RegField
  kind : AccessKind
  lockHeld : Bool
  deriving Repr, DecidableEq

/-- The accesses each method performs on the four guarded fields, in program
order, transcribed from Watchdog.cpp / Watchdog.h with the mutex-held status
of each program point.  Branches follow the same conditions as the embedded
operations.  In particular: init reads and writes initialized_, timeoutMs_
and panicOnTimeout_ with no mutex held (Watchdog.cpp lines 10, 20-21, 26,
31, and the reads inside initWatchdogESPIDF at lines 268-275); deinit
writes initialized_ at line 56 after the mutex has been released; every
access to registeredTasks_ happens between xSemaphoreTake and
xSemaphoreGive. -/
def opAccesses (st : WatchdogState) (op : WatchdogOp) : List Access :=
  match op with
  | .opInit ts _ e =>
      ⟨.initFlag, .read, false⟩ ::
      (if st.initialized then []
       else if ts = 0 ∨ ts > 3600 then []
       else [⟨.timeoutField, .write, false⟩, ⟨.panicField, .write, false⟩,
             ⟨.timeoutField, .read, false⟩, ⟨.panicField, .read, false⟩] ++
         (if e = ESP_OK ∨ e = ESP_ERR_INVALID_STATE then
            [⟨.initFlag, .write, false⟩] else []))
  | .opDeinit =>
      ⟨.initFlag, .read, false⟩ ::
      (if st.initialized then
        [⟨.entries, .read, true⟩, ⟨.entries, .write, true⟩,
         ⟨.initFlag, .write, false⟩]
       else [])
  | .opRegister ct _ _ _ ws wa _ =>
      ⟨.initFlag, .read, false⟩ ::
      (if st.initialized then
        if ct = 0 then []
        else if ws = ESP_OK ∨ (ws = ESP_ERR_NOT_FOUND ∧ wa = ESP_OK) then
          ⟨.entries, .read, true⟩ ::
          (if (Watchdog.findTaskByHandle st.registeredTasks ct).isSome then []
           else [⟨.timeoutField, .read, true⟩, ⟨.entries, .write, true⟩])
        else []
       else [])
  | .opUnregisterCurrent ct de =>
      if ct = 0 then []
      else if de ≠ ESP_OK ∧ de ≠ ESP_ERR_NOT_FOUND then []
      else ⟨.entries, .read, true⟩ ::
        (if (Watchdog.findTaskByHandle st.registeredTasks ct).isSome then
          [⟨.entries, .write, true⟩] else [])
  | .opUnregisterByHandle h de =>
      if h = 0 then []
      else if de ≠ ESP_OK ∧ de ≠ ESP_ERR_NOT_FOUND then []
      else ⟨.entries, .read, true⟩ ::
        (if (Watchdog.findTaskByHandle st.registeredTasks h).isSome then
          [⟨.entries, .write, true⟩] else [])
  | .opFeed ct lk _ _ =>
      if ct = 0 then []
      else if lk then
        ⟨.entries, .read, true⟩ ::
        (if (Watchdog.findTaskByHandle st.registeredTasks ct).isSome then
          [⟨.entries, .write, true⟩] else [])
      else []
  | .opCheckHealth lk tp now =>
      if lk then
        ⟨.entries, .read, true⟩ ::
        (if st.registeredTasks.any (Watchdog.isStale tp now) then
          [⟨.entries, .write, true⟩] else [])
      else []
  | .opGetCount lk => if lk then [⟨.entries, .read, true⟩] else []
  | .opGetTaskInfo _ lk => if lk then [⟨.entries, .read, true⟩] else []
  | .opIsInitialized => [⟨.initFlag, .read, false⟩]
  | .opGetTimeoutMs => [⟨.timeoutField, .read, false⟩]

/-- A state used to refute the saturation claim on missedFeeds: a single
registered entry whose counter sits at the uint32_t maximum while the entry
is stale (last fed at tick 0, checked at tick 3000 with a 1000 ms feed
interval and a 1 ms tick period). -/
def c1Task : TaskInfo :=
  { handle := 1
    name := "A"
    lastFeedTime := 0
    feedIntervalMs := 1000
    missedFeeds := 4294967295
    isCritical := true }

def c1State : WatchdogState :=
  { initialized := true
    timeoutMs := 30000
    panicOnTimeout := true
    registeredTasks := [c1Task] }

/-- Call sequence reaching a registry that had a task registered and then
unregistered: used to witness the unregister-then-feed claim. -/
def c9Ops : List WatchdogOp :=
  [WatchdogOp.opInit 10 false ESP_OK,
   WatchdogOp.opRegister 7 "A" true 1000 ESP_ERR_NOT_FOUND ESP_OK 0,
   WatchdogOp.opUnregisterByHandle 7 ESP_OK]

/-- Call sequence reaching a registry with one registered task (handle 5):
used to witness the double-registration claim. -/
def c8Ops : List WatchdogOp :=
  [WatchdogOp.opInit 10 false ESP_OK,
   WatchdogOp.opRegister 5 "A" true 1000 ESP_ERR_NOT_FOUND ESP_OK 0]

/-- The entry created by the registration in c8Ops. -/
def c8Task : TaskInfo :=
  { handle := 5
    name := "A"
    lastFeedTime := 0
    feedIntervalMs := 1000
    missedFeeds := 0
    isCritical := true }

/-- Entry used for the feed-resets-staleness scenario of the spec: a task
registered with a 1000 ms feed interval, last fed at tick 0. -/
def c2Task : TaskInfo :=
  { handle := 1
    name := "A"
    lastFeedTime := 0
    feedIntervalMs := 1000
    missedFeeds := 0
    isCritical := true }

/-- An initialized registry holding only c2Task. -/
def c2State : WatchdogState :=
  { initialized := true
    timeoutMs := 10000
    panicOnTimeout := true
    registeredTasks := [c2Task] }

/-- Call sequence that only initializes the registry with a 30 s timeout:
used to witness the default-feed-interval claim. -/
def c7Ops : List WatchdogOp :=
  [WatchdogOp.opInit 30 true ESP_OK]

/-- The entry produced by registering handle 3 with feedIntervalMs = 0 on
the registry reached by c7Ops: the interval defaults to 30000 / 5. -/
def c7NewTask : TaskInfo :=
  { handle := 3
    name := "C"
    lastFeedTime := 7
    feedIntervalMs := 6000
    missedFeeds := 0
    isCritical := false }

/-- The invariant established by the constructor and preserved by every
method: the global timeout is at least MIN_TIMEOUT_MS worth of one valid
second (timeoutMs_ is 30000 initially and only ever rewritten as
timeoutSeconds * 1000 with 1 <= timeoutSeconds <= 3600), and every tracked
entry has a positive feed interval. -/
def FeedIntervalInv (st : WatchdogState) : Prop :=
  1000 ≤ st.timeoutMs ∧ ∀ t ∈ st.registeredTasks, 0 < t.feedIntervalMs

/-! ## Helper lemmas -/

theorem updateFirstTask_of_find_none (tasks : List TaskInfo) (h : Nat)
    (f : TaskInfo → TaskInfo)
    (hnone : Watchdog.findTaskByHandle tasks h = none) :
    Watchdog.updateFirstTask tasks h f = tasks := by
  induction tasks with
  | nil => rfl
  | cons t rest ih =>
      unfold Watchdog.findTaskByHandle at hnone ih
      cases hh : (t.handle == h) with
      | true => rw [List.find?_cons_of_pos rest hh] at hnone; exact absurd hnone (by simp)
      | false =>
          rw [List.find?_cons_of_neg rest (by simp [hh])] at hnone
          unfold Watchdog.updateFirstTask
          rw [hh]
          simp only [Bool.false_eq_true, if_false, ih hnone]

theorem findTaskByHandle_updateFirstTask (tasks : List TaskInfo) (h : Nat)
    (f : TaskInfo → TaskInfo) (hpres : ∀ t, (f t).handle = t.handle) :
    Watchdog.findTaskByHandle (Watchdog.updateFirstTask tasks h f) h
      = (Watchdog.findTaskByHandle tasks h).map f := by
  induction tasks with
  | nil => rfl
  | cons t rest ih =>
      cases hh : (t.handle == h) with
      | true =>
          have hfh : ((f t).handle == h) = true := by rw [hpres t]; exact hh
          unfold Watchdog.updateFirstTask Watchdog.findTaskByHandle
          rw [hh]
          simp only [if_true]
          rw [List.find?_cons_of_pos rest hfh, List.find?_cons_of_pos rest hh]
          rfl
      | false =>
          unfold Watchdog.updateFirstTask Watchdog.findTaskByHandle
          rw [hh]
          simp only [Bool.false_eq_true, if_false]
          rw [List.find?_cons_of_neg (Watchdog.updateFirstTask rest h f) (by simp [hh]),
            List.find?_cons_of_neg rest (by simp [hh])]
          exact ih

theorem updateFirstTask_mem (tasks : List TaskInfo) (h : Nat)
    (f : TaskInfo → TaskInfo) (t' : TaskInfo)
    (ht : t' ∈ Watchdog.updateFirstTask tasks h f) :
    t' ∈ tasks ∨ ∃ t ∈ tasks, t' = f t := by
  induction tasks with
  | nil => simp [Watchdog.updateFirstTask] at ht
  | cons t rest ih =>
      unfold Watchdog.updateFirstTask at ht
      by_cases hh : (t.handle == h) = true
      · rw [if_pos hh] at ht
        rcases List.mem_cons.mp ht with h1 | h2
        · exact Or.inr ⟨t, List.mem_cons_self t rest, h1⟩
        · exact Or.inl (List.mem_cons_of_mem t h2)
      · rw [if_neg hh] at ht
        rcases List.mem_cons.mp ht with h1 | h2
        · exact Or.inl (h1 ▸ List.mem_cons_self t rest)
        · rcases ih h2 with h3 | ⟨u, hu, hu2⟩
          · exact Or.inl (List.mem_cons_of_mem t h3)
          · exact Or.inr ⟨u, List.mem_cons_of_mem t hu, hu2⟩

theorem isStale_of_lastFeed_now (tp now : Nat) (t : TaskInfo)
    (h : t.lastFeedTime = now) : Watchdog.isStale tp now t = false := by
  unfold Watchdog.isStale
  rw [h]
  have h1 : now + UINT32_MOD - now = UINT32_MOD := by omega
  rw [h1]
  simp

theorem isStale_no_overflow (tp now : Nat) (t : TaskInfo)
    (h1 : t.lastFeedTime ≤ now) (h2 : now - t.lastFeedTime < UINT32_MOD)
    (h3 : (now - t.lastFeedTime) * tp < UINT32_MOD)
    (h4 : t.feedIntervalMs * 2 < UINT32_MOD) :
    Watchdog.isStale tp now t
      = decide ((now - t.lastFeedTime) * tp > t.feedIntervalMs * 2) := by
  have e1 : now + UINT32_MOD - t.lastFeedTime
      = (now - t.lastFeedTime) + UINT32_MOD := by omega
  simp only [Watchdog.isStale]
  rw [e1, Nat.add_mod_right, Nat.mod_eq_of_lt h2, Nat.mod_eq_of_lt h3,
    Nat.mod_eq_of_lt h4]

theorem init_of_already_initialized (st : WatchdogState) (ts : Nat) (p : Bool)
    (e : Nat) (h : st.initialized = true) :
    Watchdog.init st ts p e = (true, st) := by
  unfold Watchdog.init
  rw [if_pos h]

theorem init_true_initialized (st : WatchdogState) (ts : Nat) (p : Bool)
    (e : Nat) (h : (Watchdog.init st ts p e).1 = true) :
    (Watchdog.init st ts p e).2.initialized = true := by
  unfold Watchdog.init at h ⊢
  split_ifs at h ⊢ with h1 h2 h3 h4
  all_goals simp_all

theorem checkHealth_locked (st : WatchdogState) (tp now : Nat) :
    Watchdog.checkHealth st true tp now
      = ((st.registeredTasks.filter (Watchdog.isStale tp now)).length,
         { st with registeredTasks := st.registeredTasks.map (fun t =>
             if Watchdog.isStale tp now t then
               { t with missedFeeds := (t.missedFeeds + 1) % UINT32_MOD }
             else t) }) := rfl

/-! ## Claim theorems -/

/-- C4: initialization is idempotent — after a first successful init, a
second init call with any arguments (including out-of-range ones) returns
success and leaves the whole registry state, in particular timeoutMs,
exactly as the first call set it. -/
theorem init_idempotent (st : WatchdogState) (ts1 : Nat) (p1 : Bool)
    (e1 ts2 : Nat) (p2 : Bool) (e2 : Nat)
    (h : (Watchdog.init st ts1 p1 e1).1 = true) :
    Watchdog.init (Watchdog.init st ts1 p1 e1).2 ts2 p2 e2
      = (true, (Watchdog.init st ts1 p1 e1).2) :=
  init_of_already_initialized _ ts2 p2 e2 (init_true_initialized st ts1 p1 e1 h)

/-- Witness for C4: a successful init with 30 s followed by an init with the
out-of-range timeout 0 succeeds and changes nothing. -/
theorem init_idempotent_witness :
    Watchdog.init (Watchdog.init initialWatchdogState 30 true ESP_OK).2 0 false 7
      = (true, (Watchdog.init initialWatchdogState 30 true ESP_OK).2) :=
  init_idempotent initialWatchdogState 30 true ESP_OK 0 false 7 (by decide)

/-- C5: when not already initialized, init with timeoutSeconds = 0 or
greater than 3600 fails and returns the state completely unchanged (so
initialized stays false and timeoutMs, panicOnTimeout and the entry
collection keep their values). -/
theorem init_rejects_bad_timeout (st : WatchdogState) (ts : Nat) (p : Bool)
    (e : Nat) (hni : st.initialized = false)
    (hrange : ts = 0 ∨ ts > 3600) :
    Watchdog.init st ts p e = (false, st) := by
  unfold Watchdog.init
  rw [if_neg (by simp [hni]), if_pos hrange]

/-- Witness for C5: init with 0 and with 3601 seconds both fail on the
fresh state and leave it untouched. -/
theorem init_rejects_bad_timeout_witness :
    Watchdog.init initialWatchdogState 0 true ESP_OK
        = (false, initialWatchdogState) ∧
    Watchdog.init initialWatchdogState 3601 true ESP_OK
        = (false, initialWatchdogState) :=
  ⟨init_rejects_bad_timeout initialWatchdogState 0 true ESP_OK rfl (Or.inl rfl),
   init_rejects_bad_timeout initialWatchdogState 3601 true ESP_OK rfl
     (Or.inr (by decide))⟩

/-- C6: with a valid timeout on an uninitialized registry, an adapter
result of ESP_ERR_INVALID_STATE (deadline already armed by another owner)
makes init succeed and mark the registry initialized, while any adapter
result other than ESP_OK and ESP_ERR_INVALID_STATE makes init fail and
leaves the registry uninitialized. -/
theorem init_adapter_result (st : WatchdogState) (ts : Nat) (p : Bool)
    (e : Nat) (hni : st.initialized = false) (h1 : 1 ≤ ts) (h2 : ts ≤ 3600) :
    (e = ESP_ERR_INVALID_STATE →
      (Watchdog.init st ts p e).1 = true ∧
      (Watchdog.init st ts p e).2.initialized = true) ∧
    (e ≠ ESP_OK → e ≠ ESP_ERR_INVALID_STATE →
      (Watchdog.init st ts p e).1 = false ∧
      (Watchdog.init st ts p e).2.initialized = false) := by
  constructor
  · intro he
    subst he
    unfold Watchdog.init
    rw [if_neg (by simp [hni]), if_neg (by omega), if_neg (by decide),
      if_pos rfl]
    exact ⟨rfl, rfl⟩
  · intro hne1 hne2
    unfold Watchdog.init
    rw [if_neg (by simp [hni]), if_neg (by omega), if_neg hne1, if_neg hne2]
    exact ⟨rfl, hni⟩

/-- Witness for C6: on the fresh state with a 30 s timeout, adapter result
ESP_ERR_INVALID_STATE yields success and initialized = true, and the
unrelated adapter error 258 yields failure with initialized = false. -/
theorem init_adapter_result_witness :
    ((Watchdog.init initialWatchdogState 30 true ESP_ERR_INVALID_STATE).1 = true ∧
      (Watchdog.init initialWatchdogState 30 true ESP_ERR_INVALID_STATE).2.initialized
        = true) ∧
    ((Watchdog.init initialWatchdogState 30 true 258).1 = false ∧
      (Watchdog.init initialWatchdogState 30 true 258).2.initialized = false) :=
  ⟨(init_adapter_result initialWatchdogState 30 true ESP_ERR_INVALID_STATE rfl
      (by decide) (by decide)).1 rfl,
   (init_adapter_result initialWatchdogState 30 true 258 rfl
      (by decide) (by decide)).2 (by decide) (by decide)⟩

/-- C8: registering a task identity that already has an entry succeeds and
returns the registry state unchanged, so count() is unchanged and no field
of the existing entry (in particular lastFeedTime) is modified. -/
theorem register_idempotent (st : WatchdogState) (ct : Nat) (nm : String)
    (ic : Bool) (fi ws wa now : Nat) (t0 : TaskInfo)
    (hinit : st.initialized = true) (hct : ct ≠ 0)
    (hfound : Watchdog.findTaskByHandle st.registeredTasks ct = some t0)
    (hws : ws = ESP_OK ∨ (ws = ESP_ERR_NOT_FOUND ∧ wa = ESP_OK)) :
    Watchdog.registerCurrentTask st ct nm ic fi ws wa now = (true, st) := by
  have hlocked : Watchdog.registerLocked st ct nm ic fi now = (true, st) := by
    unfold Watchdog.registerLocked
    rw [hfound]
  unfold Watchdog.registerCurrentTask
  rw [if_pos hinit, if_neg hct]
  rcases hws with hws | ⟨hws, hwa⟩
  · rw [if_pos hws]
    exact hlocked
  · subst hws
    rw [if_neg (by decide), if_pos rfl, if_neg (by simp [hwa])]
    exact hlocked

/-- Witness for C8: after registering handle 5 once, a second registration
attempt for handle 5 returns success and the exact same state. -/
theorem register_idempotent_witness :
    Watchdog.registerCurrentTask (runWatchdog c8Ops) 5 "A" true 1000 ESP_OK 0 99
      = (true, runWatchdog c8Ops) :=
  register_idempotent (runWatchdog c8Ops) 5 "A" true 1000 ESP_OK 0 99 c8Task
    (by decide) (by decide) (by decide) (Or.inl rfl)

/-- C9: feed called by a task with no entry in the registry (for instance a
previously unregistered one) returns success and leaves the registry state
completely unchanged: no entry is created or re-created, count() and every
existing entry stay as they were. -/
theorem feed_unregistered_noop (st : WatchdogState) (ct : Nat)
    (lockAcquired : Bool) (now wdtStatus : Nat) (hct : ct ≠ 0)
    (habs : Watchdog.findTaskByHandle st.registeredTasks ct = none) :
    (Watchdog.feed st ct lockAcquired now wdtStatus).1 = true ∧
    (Watchdog.feed st ct lockAcquired now wdtStatus).2.1 = st := by
  simp only [Watchdog.feed, if_neg hct]
  cases lockAcquired with
  | false => simp
  | true => simp [updateFirstTask_of_find_none _ _ _ habs]

/-- Witness for C9: after init, register handle 7, unregister handle 7, a
feed from handle 7 succeeds and leaves the state unchanged. -/
theorem feed_unregistered_noop_witness :
    (Watchdog.feed (runWatchdog c9Ops) 7 true 100 ESP_OK).1 = true ∧
    (Watchdog.feed (runWatchdog c9Ops) 7 true 100 ESP_OK).2.1 = runWatchdog c9Ops :=
  feed_unregistered_noop (runWatchdog c9Ops) 7 true 100 ESP_OK (by decide)
    (by decide)

/-- C10: when the current task handle cannot be resolved (nullptr, embedded
as 0), feed returns failure, leaves the registry state untouched, and makes
no call into the ESP-IDF watchdog adapter, for every state, lock outcome and
adapter status. -/
theorem feed_null_handle (st : WatchdogState) (lockAcquired : Bool)
    (now wdtStatus : Nat) :
    Watchdog.feed st 0 lockAcquired now wdtStatus = (false, st, []) := by
  simp [Watchdog.feed]

/-- C2: under the lock, checkHealth counts exactly the entries whose
elapsed time since their last feed exceeds twice their feed interval (the
hypotheses state that the tick difference and both compared millisecond
quantities are representable in 32 bits, as they are for every in-range
configuration); and an entry fed at tick now by its owning task is not
reported stale by a checkHealth performed at that same tick. -/
theorem checkHealth_counts_stale (st : WatchdogState) (tp now : Nat)
    (hok : ∀ t ∈ st.registeredTasks, t.lastFeedTime ≤ now ∧
        now - t.lastFeedTime < UINT32_MOD ∧
        (now - t.lastFeedTime) * tp < UINT32_MOD ∧
        t.feedIntervalMs * 2 < UINT32_MOD) :
    (Watchdog.checkHealth st true tp now).1
      = (st.registeredTasks.filter
          (fun t => decide ((now - t.lastFeedTime) * tp > t.feedIntervalMs * 2))).length ∧
    ∀ ct ws t', ct ≠ 0 →
      Watchdog.findTaskByHandle
        ((Watchdog.feed st ct true now ws).2.1).registeredTasks ct = some t' →
      Watchdog.isStale tp now t' = false := by
  constructor
  · rw [checkHealth_locked]
    simp only []
    refine congrArg List.length (List.filter_congr ?_)
    intro t ht
    obtain ⟨h1, h2, h3, h4⟩ := hok t ht
    exact isStale_no_overflow tp now t h1 h2 h3 h4
  · intro ct ws t' hct hfind
    simp only [Watchdog.feed, if_neg hct, eq_self_iff_true, if_true] at hfind
    rw [findTaskByHandle_updateFirstTask st.registeredTasks ct
      (fun t => { t with lastFeedTime := now, missedFeeds := 0 })
      (fun t => rfl)] at hfind
    rcases Option.map_eq_some'.mp hfind with ⟨t0, _, ht0⟩
    rw [← ht0]
    exact isStale_of_lastFeed_now tp now _ rfl

/-- Witness for C2: on the spec scenario (feed interval 1000 ms, last fed at
tick 0, tick period 1 ms) a checkHealth at tick 2500 reports exactly one
stale entry, and after the owner feeds at tick 2500 the refreshed entry is
no longer stale at tick 2500. -/
theorem checkHealth_counts_stale_witness :
    (Watchdog.checkHealth c2State true 1 2500).1 = 1 ∧
    Watchdog.isStale 1 2500
      { c2Task with lastFeedTime := 2500, missedFeeds := 0 } = false := by
  have h := checkHealth_counts_stale c2State 1 2500 (by decide)
  refine ⟨?_, ?_⟩
  · rw [h.1]
    decide
  · exact h.2 1 ESP_OK { c2Task with lastFeedTime := 2500, missedFeeds := 0 }
      (by decide) (by decide)

/-- C1 counterexample: with a stale registered entry whose missedFeeds sits
at the uint32_t maximum 4294967295, one checkHealth scan wraps the counter
to 0 instead of saturating at the maximum, refuting the saturating-counter
claim. -/
theorem missedFeeds_wraps_counterexample :
    Watchdog.isStale 1 3000 c1Task = true ∧
    c1Task.missedFeeds = 4294967295 ∧
    (Watchdog.checkHealth c1State true 1 3000).2.registeredTasks
      = [{ c1Task with missedFeeds := 0 }] := by decide

/-- C1 amended: missedFeeds is a modulo-2^32 wrapping counter, not a
saturating one — each checkHealth scan that finds the entry stale
increments it by one modulo 2^32 (so from 4294967295 it wraps to 0), a
scan that finds it fresh leaves it unchanged, and any subsequent feed by
the owning task resets it to zero. -/
theorem missedFeeds_wrapping_counter (st : WatchdogState) (tp now : Nat)
    (t : TaskInfo) (ht : t ∈ st.registeredTasks) :
    (Watchdog.isStale tp now t = true →
      { t with missedFeeds := (t.missedFeeds + 1) % UINT32_MOD }
        ∈ (Watchdog.checkHealth st true tp now).2.registeredTasks) ∧
    (Watchdog.isStale tp now t = false →
      t ∈ (Watchdog.checkHealth st true tp now).2.registeredTasks) ∧
    (∀ ws fnow t', t.handle ≠ 0 →
      Watchdog.findTaskByHandle
        ((Watchdog.feed st t.handle true fnow ws).2.1).registeredTasks t.handle
          = some t' →
      t'.missedFeeds = 0) := by
  refine ⟨?_, ?_, ?_⟩
  · intro hstale
    rw [checkHealth_locked]
    refine List.mem_map.mpr ⟨t, ht, ?_⟩
    simp [hstale]
  · intro hfresh
    rw [checkHealth_locked]
    refine List.mem_map.mpr ⟨t, ht, ?_⟩
    simp [hfresh]
  · intro ws fnow t' hh hfind
    simp only [Watchdog.feed, if_neg hh, eq_self_iff_true, if_true] at hfind
    rw [findTaskByHandle_updateFirstTask st.registeredTasks t.handle
      (fun u => { u with lastFeedTime := fnow, missedFeeds := 0 })
      (fun u => rfl)] at hfind
    rcases Option.map_eq_some'.mp hfind with ⟨t0, _, ht0⟩
    rw [← ht0]

/-- Witness for C1: on the wrapped-counter state, a stale scan maps the
counter 4294967295 to (4294967295 + 1) mod 2^32, and after the owner of
handle 1 feeds at tick 500 the tracked entry's counter is 0. -/
theorem missedFeeds_wrapping_counter_witness :
    ({ c1Task with missedFeeds := (c1Task.missedFeeds + 1) % UINT32_MOD }
        ∈ (Watchdog.checkHealth c1State true 1 3000).2.registeredTasks) ∧
    ({ c1Task with lastFeedTime := 500, missedFeeds := 0 } : TaskInfo).missedFeeds
        = 0 :=
  ⟨(missedFeeds_wrapping_counter c1State 1 3000 c1Task (by decide)).1 (by decide),
   (missedFeeds_wrapping_counter c1State 1 3000 c1Task (by decide)).2.2 ESP_OK 500
     { c1Task with lastFeedTime := 500, missedFeeds := 0 } (by decide) (by decide)⟩

theorem inv_initial : FeedIntervalInv initialWatchdogState := by
  refine ⟨by decide, ?_⟩
  intro t ht
  simp [initialWatchdogState] at ht

theorem inv_registerLocked (st : WatchdogState) (ct : Nat) (nm : String)
    (ic : Bool) (fi now : Nat) (hinv : FeedIntervalInv st) :
    FeedIntervalInv (Watchdog.registerLocked st ct nm ic fi now).2 := by
  obtain ⟨htm, hts⟩ := hinv
  unfold Watchdog.registerLocked
  cases hfind : Watchdog.findTaskByHandle st.registeredTasks ct with
  | some t0 =>
      exact ⟨htm, hts⟩
  | none =>
      refine ⟨htm, ?_⟩
      intro t ht
      simp only [] at ht
      rcases List.mem_append.mp ht with h | h
      · exact hts t h
      · rcases List.mem_singleton.mp h with rfl
        simp only []
        split_ifs with hfi
        · exact hfi
        · omega

theorem inv_step (st : WatchdogState) (op : WatchdogOp)
    (hinv : FeedIntervalInv st) : FeedIntervalInv (stepWatchdog st op) := by
  obtain ⟨htm, hts⟩ := hinv
  cases op with
  | opInit ts p e =>
      simp only [stepWatchdog, Watchdog.init]
      have hm : ts * 1000 % UINT32_MOD = ts * 1000 ∨ ts = 0 ∨ ts > 3600 := by
        by_cases hr : ts = 0 ∨ ts > 3600
        · exact Or.inr hr
        · exact Or.inl (Nat.mod_eq_of_lt (by simp only [UINT32_MOD]; omega))
      split_ifs with h1 h2 h3 h4
      · exact ⟨htm, hts⟩
      · exact ⟨htm, hts⟩
      · refine ⟨?_, hts⟩
        rcases hm with hm | hm
        · simp only [hm]; omega
        · exact absurd hm h2
      · refine ⟨?_, hts⟩
        rcases hm with hm | hm
        · simp only [hm]; omega
        · exact absurd hm h2
      · refine ⟨?_, hts⟩
        rcases hm with hm | hm
        · simp only [hm]; omega
        · exact absurd hm h2
  | opDeinit =>
      simp only [stepWatchdog, Watchdog.deinit]
      split_ifs with h1
      · exact ⟨htm, by simp⟩
      · exact ⟨htm, hts⟩
  | opRegister ct nm ic fi ws wa now =>
      simp only [stepWatchdog, Watchdog.registerCurrentTask]
      split_ifs with h1 h2 h3 h4 h5
      · exact ⟨htm, hts⟩
      · exact inv_registerLocked st ct nm ic fi now ⟨htm, hts⟩
      · exact ⟨htm, hts⟩
      · exact inv_registerLocked st ct nm ic fi now ⟨htm, hts⟩
      · exact ⟨htm, hts⟩
      · exact ⟨htm, hts⟩
  | opUnregisterCurrent ct de =>
      simp only [stepWatchdog, Watchdog.unregisterCurrentTask,
        Watchdog.unregisterTaskByHandle]
      split_ifs with h1 h2 h3
      all_goals
        first
          | exact ⟨htm, hts⟩
          | exact ⟨htm, fun t ht => hts t (List.mem_filter.mp ht).1⟩
  | opUnregisterByHandle h de =>
      simp only [stepWatchdog, Watchdog.unregisterTaskByHandle]
      split_ifs with h1 h2
      all_goals
        first
          | exact ⟨htm, hts⟩
          | exact ⟨htm, fun t ht => hts t (List.mem_filter.mp ht).1⟩
  | opFeed ct lk now ws =>
      simp only [stepWatchdog, Watchdog.feed]
      split_ifs with h1 h2 h3 h4
      · exact ⟨htm, hts⟩
      · refine ⟨htm, ?_⟩
        intro t ht
        rcases updateFirstTask_mem _ _ _ t ht with h | ⟨u, hu, rfl⟩
        · exact hts t h
        · exact hts u hu
      · refine ⟨htm, ?_⟩
        intro t ht
        rcases updateFirstTask_mem _ _ _ t ht with h | ⟨u, hu, rfl⟩
        · exact hts t h
        · exact hts u hu
      · exact ⟨htm, hts⟩
      · exact ⟨htm, hts⟩
  | opCheckHealth lk tp now =>
      simp only [stepWatchdog, Watchdog.checkHealth]
      split_ifs with h1
      · refine ⟨htm, ?_⟩
        intro t ht
        rcases List.mem_map.mp ht with ⟨u, hu, rfl⟩
        split_ifs with hs
        · exact hts u hu
        · exact hts u hu
      · exact ⟨htm, hts⟩
  | opGetCount lk => exact ⟨htm, hts⟩
  | opGetTaskInfo nm lk => exact ⟨htm, hts⟩
  | opIsInitialized => exact ⟨htm, hts⟩
  | opGetTimeoutMs => exact ⟨htm, hts⟩

theorem inv_run (ops : List WatchdogOp) : FeedIntervalInv (runWatchdog ops) := by
  have hgen : ∀ (l : List WatchdogOp) (st : WatchdogState), FeedIntervalInv st →
      FeedIntervalInv (l.foldl stepWatchdog st) := by
    intro l
    induction l with
    | nil => intro st h; exact h
    | cons op rest ih => intro st h; exact ih _ (inv_step st op h)
  exact hgen ops _ inv_initial

theorem registerLocked_new_entry (st : WatchdogState) (ct : Nat) (nm : String)
    (ic : Bool) (fi now : Nat) (t : TaskInfo)
    (hmem : t ∈ (Watchdog.registerLocked st ct nm ic fi now).2.registeredTasks)
    (hnot : t ∉ st.registeredTasks) :
    t.feedIntervalMs = (if 0 < fi then fi else st.timeoutMs / 5) := by
  unfold Watchdog.registerLocked at hmem
  cases hfind : Watchdog.findTaskByHandle st.registeredTasks ct with
  | some t0 =>
      rw [hfind] at hmem
      exact absurd hmem hnot
  | none =>
      rw [hfind] at hmem
      simp only [] at hmem
      rcases List.mem_append.mp hmem with h | h
      · exact absurd h hnot
      · rcases List.mem_singleton.mp h with rfl
        rfl

/-- C7: in every reachable registry state, every entry has a strictly
positive feedIntervalMs; moreover an entry newly created by a register call
stores the supplied interval when it is positive and stores timeoutMs / 5
when the supplied interval is zero, and that default is itself positive
because every reachable timeoutMs is at least 1000. -/
theorem registered_feedInterval_positive (ops : List WatchdogOp) :
    (∀ t ∈ (runWatchdog ops).registeredTasks, 0 < t.feedIntervalMs) ∧
    (∀ ct nm ic fi ws wa now t,
      t ∈ (Watchdog.registerCurrentTask (runWatchdog ops) ct nm ic fi ws wa
            now).2.registeredTasks →
      t ∉ (runWatchdog ops).registeredTasks →
      (0 < fi → t.feedIntervalMs = fi) ∧
      (fi = 0 → t.feedIntervalMs = (runWatchdog ops).timeoutMs / 5) ∧
      0 < t.feedIntervalMs) := by
  obtain ⟨htm, hts⟩ := inv_run ops
  refine ⟨hts, ?_⟩
  intro ct nm ic fi ws wa now t hmem hnot
  have hkey : t.feedIntervalMs
      = (if 0 < fi then fi else (runWatchdog ops).timeoutMs / 5) := by
    unfold Watchdog.registerCurrentTask at hmem
    split_ifs at hmem
    · exact absurd hmem hnot
    · exact registerLocked_new_entry _ ct nm ic fi now t hmem hnot
    · exact absurd hmem hnot
    · exact registerLocked_new_entry _ ct nm ic fi now t hmem hnot
    · exact absurd hmem hnot
    · exact absurd hmem hnot
  refine ⟨?_, ?_, ?_⟩
  · intro hfi
    rw [hkey, if_pos hfi]
  · intro hfi
    rw [hkey, if_neg (by omega)]
  · rw [hkey]
    split_ifs with hfi
    · exact hfi
    · omega

/-- Witness for C7: the entry registered with interval 1000 has a positive
interval, and registering handle 3 with interval 0 on a registry
initialized with a 30 s timeout stores 30000 / 5 = 6000, which is
positive. -/
theorem registered_feedInterval_positive_witness :
    0 < c8Task.feedIntervalMs ∧
    c7NewTask.feedIntervalMs = (runWatchdog c7Ops).timeoutMs / 5 ∧
    0 < c7NewTask.feedIntervalMs :=
  ⟨(registered_feedInterval_positive c8Ops).1 c8Task (by decide),
   ((registered_feedInterval_positive c7Ops).2 3 "C" false 0 ESP_OK 0 7 c7NewTask
      (by decide) (by decide)).2.1 rfl,
   ((registered_feedInterval_positive c7Ops).2 3 "C" false 0 ESP_OK 0 7 c7NewTask
      (by decide) (by decide)).2.2⟩

/-- C3 counterexample: during a successful first init on the fresh registry,
the source performs a write to timeoutMs_ (and to panicOnTimeout_ and
initialized_) without holding the task-list mutex (Watchdog.cpp lines
20-21, 26 are outside any xSemaphoreTake/xSemaphoreGive pair), so there is
an access that is a write to a guarded field with the lock not held. -/
theorem guarded_writes_counterexample :
    ∃ a ∈ opAccesses initialWatchdogState (WatchdogOp.opInit 30 true ESP_OK),
      a.kind = AccessKind.write ∧ a.lockHeld = false := by decide

/-- C3 amended: the entry collection is only ever mutated while the caller
holds the Registry's exclusive lock; the scalar fields initialized,
timeoutMs and panicOnTimeout are, by contrast, written by init and deinit
without holding it (initialized is an atomic flag that is also read without
the lock). -/
theorem entries_writes_locked (st : WatchdogState) (op : WatchdogOp) :
    ∀ a ∈ opAccesses st op, a.field = RegField.entries →
      a.kind = AccessKind.write → a.lockHeld = true := by
  cases op with
  | opInit ts p e =>
      simp only [opAccesses]
      split_ifs <;> decide
  | opDeinit =>
      simp only [opAccesses]
      split_ifs <;> decide
  | opRegister ct nm ic fi ws wa now =>
      simp only [opAccesses]
      split_ifs <;> decide
  | opUnregisterCurrent ct de =>
      simp only [opAccesses]
      split_ifs <;> decide
  | opUnregisterByHandle h de =>
      simp only [opAccesses]
      split_ifs <;> decide
  | opFeed ct lk now ws =>
      simp only [opAccesses]
      split_ifs <;> decide
  | opCheckHealth lk tp now =>
      simp only [opAccesses]
      split_ifs <;> decide
  | opGetCount lk =>
      simp only [opAccesses]
      split_ifs <;> decide
  | opGetTaskInfo nm lk =>
      simp only [opAccesses]
      split_ifs <;> decide
  | opIsInitialized =>
      simp only [opAccesses]
      decide
  | opGetTimeoutMs =>
      simp only [opAccesses]
      decide

/-- Witness for C3 amended: the entry-collection write performed by a feed
from registered handle 1 carries the lock-held flag. -/
theorem entries_writes_locked_witness :
    ({ field := RegField.entries, kind := AccessKind.write, lockHeld := true }
        : Access).lockHeld = true :=
  entries_writes_locked c1State (WatchdogOp.opFeed 1 true 500 ESP_OK)
    { field := RegField.entries, kind := AccessKind.write, lockHeld := true }
    (by decide) rfl rfl
